import Mathlib

/-!
Verification development for the `apiload5/downloader-` repository: a set of
near-duplicate Express HTTP services (src/api/index.js, src/unnamed/part_000,
src/unnamed/part_001) exposing `/api/fetch-info` and `/api/download`, plus a
Firebase cloud-functions variant (src/index.js) that persists download records
in Firestore.  The JavaScript handlers are shallowly embedded below: request
parameters become `Option String`, the extraction library (`ytdl-core` /
`yt-dlp-wrap`) is an oracle argument, and responses become explicit records.
-/

namespace Downloader

/-! ## JavaScript primitives used by the handlers -/

/-- JS truthiness of a string-or-undefined value (`url`, `itag`, ...):
`undefined` and the empty string are falsy, every other string is truthy. -/
def jsTruthy : Option String → Bool
  | none => false
  | some s => !s.isEmpty

/-- A character matched by the JS regex class `\w` (ASCII word characters). -/
def jsWordChar (c : Char) : Bool :=
  (('A' ≤ c && c ≤ 'Z') || ('a' ≤ c && c ≤ 'z') || c.isDigit || c == '_')

/-- A character matched by the JS regex class `\s` (ASCII whitespace forms;
the handlers only ever see ASCII titles and quality labels). -/
def jsSpace (c : Char) : Bool :=
  (c == ' ' || c == '\t' || c == '\n' || c == '\r')

/-- `title.replace(/[^\w\s-]/g, '').trim()` from the download handlers:
drop every character that is not a word character, whitespace or a dash,
then trim surrounding whitespace. -/
def sanitizeTitle (t : String) : String :=
  (String.mk (t.data.filter (fun c => jsWordChar c || jsSpace c || c == '-'))).trim

/-- `quality.replace(/\s/g, '_')` from the video branch of the download
handlers: each whitespace character becomes an underscore. -/
def replaceSpaces (q : String) : String :=
  String.mk (q.data.map (fun c => if jsSpace c then '_' else c))

/-- Models JS `parseInt` on the `contentLength` strings `ytdl-core` reports
(decimal byte counts, possibly with leading whitespace): skip leading
whitespace, then read decimal digits; no digit at all is NaN (`none`). -/
def jsParseInt (s : String) : Option Nat :=
  let cs := s.data.dropWhile jsSpace
  let ds := cs.takeWhile Char.isDigit
  if ds.isEmpty then none
  else some (ds.foldl (fun acc c => acc * 10 + (c.toNat - 48)) 0)

/-- Models `(n / (1024*1024)).toFixed(2)`: the byte count as megabytes with
two decimals; the double-precision rounding of `toFixed` is modelled as exact
rational rounding, half away from zero. -/
def toFixed2MB (n : Nat) : String :=
  let scaled := (n * 100 * 2 + 1048576) / (1048576 * 2)
  let whole := scaled / 100
  let frac := scaled % 100
  toString whole ++ "." ++ (if frac < 10 then "0" else "") ++ toString frac

/-- `f.contentLength ? (parseInt(f.contentLength)/(1024*1024)).toFixed(2) + ' MB'
: 'Unknown Size'` from the fetch-info handlers. -/
def contentLengthDisplay : Option String → String
  | none => "Unknown Size"
  | some s =>
    if s.isEmpty then "Unknown Size"
    else
      match jsParseInt s with
      | none => "NaN MB"
      | some n => toFixed2MB n ++ " MB"

/-! ## Data model of the fetch-info handlers (src/api/index.js and clones) -/

/-- A stream format as reported by `ytdl-core` (the fields the handlers
read). `qualityLabel` is `none` when the library reports `null`. -/
structure UpstreamFormat where
  qualityLabel : Option String
  container : String
  hasVideo : Bool
  hasAudio : Bool
  height : Int
  itag : Nat
  contentLength : Option String
deriving DecidableEq, Repr

/-- The `itag` field of a reported format entry: the upstream formats carry a
numeric itag, the synthetic audio entry carries the string `'bestaudio'`. -/
inductive ItagVal where
  | num (n : Nat)
  | str (s : String)
deriving DecidableEq, Repr

/-- One element of the `formats` array of a fetch-info response. -/
structure FormatEntry where
  quality : String
  container : String
  itag : ItagVal
  contentLength : String
deriving DecidableEq, Repr

/-- The filter of the fetch-info handlers:
`f.qualityLabel && f.container === 'mp4' && f.hasVideo && f.hasAudio`. -/
def keepFormat (f : UpstreamFormat) : Bool :=
  jsTruthy f.qualityLabel && f.container == "mp4" && f.hasVideo && f.hasAudio

/-- The element mapping of the fetch-info handlers, producing the reported
entry for one upstream format. -/
def toEntry (f : UpstreamFormat) : FormatEntry :=
  { quality := f.qualityLabel.getD ""
    container := f.container
    itag := .num f.itag
    contentLength := contentLengthDisplay f.contentLength }

/-- The synthetic `MP3 (Audio Only)` entry pushed at the end of the list. -/
def syntheticAudioEntry : FormatEntry :=
  { quality := "MP3 (Audio Only)"
    container := "mp3"
    itag := .str "bestaudio"
    contentLength := "Varies" }

/-- Insertion step of the handlers' `sort((a, b) => b.height - a.height)`:
place `f` before the first element of strictly smaller height. -/
def insertByHeightDesc (f : UpstreamFormat) : List UpstreamFormat → List UpstreamFormat
  | [] => [f]
  | g :: gs => if g.height < f.height then f :: g :: gs else g :: insertByHeightDesc f gs

/-- `formats.sort((a, b) => b.height - a.height)`: sort descending by the
vertical resolution, modelled as insertion sort. -/
def sortByHeightDesc : List UpstreamFormat → List UpstreamFormat
  | [] => []
  | f :: fs => insertByHeightDesc f (sortByHeightDesc fs)

/-- The whole `finalFormats` computation of the fetch-info handlers: filter
to muxed mp4 formats, sort descending by height, map to response entries,
then push the synthetic audio-only entry. -/
def finalFormats (fs : List UpstreamFormat) : List FormatEntry :=
  (sortByHeightDesc (fs.filter keepFormat)).map toEntry ++ [syntheticAudioEntry]

/-- What `ytdl.getInfo` resolves to: the fields the handlers read
(`info.formats`, `info.videoDetails.title`, `info.videoDetails.thumbnails`,
each thumbnail reduced to its `url`). -/
structure VideoInfo where
  formats : List UpstreamFormat
  title : String
  thumbnails : List String
deriving DecidableEq, Repr

/-- The JSON document of a successful fetch-info response. -/
structure FetchInfoResponse where
  title : String
  thumbnail : String
  formats : List FormatEntry
deriving DecidableEq, Repr

/-- Body of a fetch-info HTTP response: either `{error: msg}` or the info
document. -/
inductive RBody where
  | jsonError (msg : String)
  | jsonInfo (r : FetchInfoResponse)
deriving DecidableEq, Repr

/-- An HTTP response of the fetch-info handlers. -/
structure HResp where
  status : Nat
  body : RBody
deriving DecidableEq, Repr

/-- The fixed catch-block message of the src/api/index.js fetch-info
handler. -/
def fetchInfoErrMsg : String :=
  "Video information nahi mil payi. Kripya URL check karein."

/-- The `POST /api/fetch-info` handler of src/api/index.js (ytdl-core
variant).  `validateURL` stands for `ytdl.validateURL`, `getInfo` for the
settled result of `ytdl.getInfo url`.  The second component records whether
the extraction library was called.  An empty `thumbnails` array makes
`thumbnails.slice(-1)[0].url` throw, which the catch block turns into the
same 500 as a failed extraction call. -/
def fetchInfoHandler (validateURL : String → Bool)
    (getInfo : String → Except String VideoInfo) (url : Option String) :
    HResp × Bool :=
  if !jsTruthy url then
    ({ status := 400, body := .jsonError "Video URL is required." }, false)
  else
    if !validateURL (url.getD "") then
      ({ status := 400,
         body := .jsonError
           "Kripya ek valid YouTube URL daalein. (Currently only YouTube is fully supported)" },
       false)
    else
      match getInfo (url.getD "") with
      | .error _ => ({ status := 500, body := .jsonError fetchInfoErrMsg }, true)
      | .ok info =>
        match info.thumbnails.getLast? with
        | none => ({ status := 500, body := .jsonError fetchInfoErrMsg }, true)
        | some thumb =>
          ({ status := 200,
             body := .jsonInfo
               { title := info.title, thumbnail := thumb, formats := finalFormats info.formats } },
           true)

/-- The format selection of the ytdl-core-muxer variant (second handler in
src/api/index.js): `ytdl.filterFormats(info.formats, 'videoandaudio')`
followed by `.filter(f => f.qualityLabel && f.container === 'mp4')`, then the
same sort, map and push. -/
def muxerFinalFormats (fs : List UpstreamFormat) : List FormatEntry :=
  (sortByHeightDesc
      ((fs.filter (fun f => f.hasVideo && f.hasAudio)).filter
        (fun f => jsTruthy f.qualityLabel && f.container == "mp4"))).map toEntry
    ++ [syntheticAudioEntry]

/-- The `POST /api/fetch-info` handler of the ytdl-core-muxer variant: same
shape as `fetchInfoHandler` but with no `validateURL` check. -/
def muxerFetchInfoHandler (getInfo : String → Except String VideoInfo)
    (url : Option String) : HResp × Bool :=
  if !jsTruthy url then
    ({ status := 400, body := .jsonError "Video URL is required." }, false)
  else
    match getInfo (url.getD "") with
    | .error _ => ({ status := 500, body := .jsonError fetchInfoErrMsg }, true)
    | .ok info =>
      match info.thumbnails.getLast? with
      | none => ({ status := 500, body := .jsonError fetchInfoErrMsg }, true)
      | some thumb =>
        ({ status := 200,
           body := .jsonInfo
             { title := info.title, thumbnail := thumb,
               formats := muxerFinalFormats info.formats } },
         true)

/-- Catch block of the src/unnamed/part_000 fetch-info handler: the response
is a fixed 500 whatever the upstream error message was. -/
def part000FetchInfoCatch (_errMsg : String) : HResp :=
  { status := 500,
    body := .jsonError "Video information nahi mil payi. URL ya network check karein." }

/-- Catch block of the fetch-info handler embedded in src/unnamed/part_001:
again a fixed 500 independent of the upstream error message. -/
def part001FetchInfoCatch (_errMsg : String) : HResp :=
  { status := 500,
    body := .jsonError "Video information nahi mil payi. URL ya video ki availability check karein." }

/-! ## The GET /api/download handler (src/api/index.js, ytdl-core variant) -/

/-- The query parameters the download handler destructures from `req.query`.
A `none` field is an absent parameter (`undefined`). -/
structure DownloadQuery where
  url : Option String
  itag : Option String
  quality : Option String
  title : Option String
deriving DecidableEq, Repr

/-- The observable outcome of one run of the download handler: the status
written, the headers set, the plain-text body of an error response, and
whether a ytdl extraction stream / an ffmpeg transcoding pipeline was
started. -/
structure DlResult where
  status : Nat
  contentType : Option String
  contentDisposition : Option String
  body : String
  streamOpened : Bool
  ffmpegStarted : Bool
deriving DecidableEq, Repr

/-- A synchronous JavaScript exception thrown inside the handler's `try`. -/
inductive JsError where
  | typeError (msg : String)
deriving DecidableEq, Repr

/-- The `try` block of the download handler, after the parameter check and
the computation of `cleanTitle`.  When `itag` is not `'bestaudio'` and
`quality` is `undefined`, building the Content-Disposition value calls
`quality.replace(...)` on `undefined` and throws a TypeError before any
header is set. -/
def downloadTry (cleanTitle itag : String) (quality : Option String) :
    Except JsError DlResult :=
  if itag == "bestaudio" then
    .ok { status := 200
          contentType := some "audio/mpeg"
          contentDisposition :=
            some ("attachment; filename=\"" ++ cleanTitle ++ "_audio.mp3\"")
          body := ""
          streamOpened := true
          ffmpegStarted := true }
  else
    match quality with
    | none =>
      .error (.typeError "Cannot read properties of undefined (reading 'replace')")
    | some qual =>
      .ok { status := 200
            contentType := some "video/mp4"
            contentDisposition :=
              some ("attachment; filename=\"" ++ cleanTitle ++ "_" ++
                replaceSpaces qual ++ ".mp4\"")
            body := ""
            streamOpened := true
            ffmpegStarted := false }

/-- The `GET /api/download` handler of src/api/index.js: validates that `url`
and `itag` are truthy, computes `cleanTitle` (with `title` defaulting to
`'video'`), runs the `try` block, and turns a thrown exception into a 500
(headers were not yet sent at the only synchronous throw site, so the
`!res.headersSent` guard of the catch passes). -/
def downloadHandler (q : DownloadQuery) : DlResult :=
  if !jsTruthy q.url || !jsTruthy q.itag then
    { status := 400
      contentType := none
      contentDisposition := none
      body := "Video URL aur Format ID (itag) zaruri hai."
      streamOpened := false
      ffmpegStarted := false }
  else
    let cleanTitle := sanitizeTitle (q.title.getD "video")
    match downloadTry cleanTitle (q.itag.getD "") q.quality with
    | .ok r => r
    | .error _ =>
      { status := 500
        contentType := none
        contentDisposition := none
        body := "Unexpected error during download."
        streamOpened := false
        ffmpegStarted := false }

/-- The ffmpeg `error` event handler of the audio branch: given whether
response headers have already been sent, it either writes a 500 and ends the
response (`some 500`) or does nothing (`none`). -/
def ffmpegOnError (headersSent : Bool) : Option Nat :=
  if !headersSent then some 500 else none

/-- The `videoStream.on('error', ...)` handler of the video branch: same
`!res.headersSent` guard before writing a 500. -/
def videoStreamOnError (headersSent : Bool) : Option Nat :=
  if !headersSent then some 500 else none

/-- The outer catch block of the download handler: also guarded by
`!res.headersSent`. -/
def downloadCatchOnError (headersSent : Bool) : Option Nat :=
  if !headersSent then some 500 else none

/-! ## The Firebase / yt-dlp variant (src/index.js) -/

/-- A format as reported by `yt-dlp-wrap`'s `getVideoInfo` (the fields the
handler projects out, plus the stream `url` it ignores). -/
structure YtDlpFormat where
  format_id : String
  format_note : String
  resolution : String
  filesize : Option Nat
  url : String
deriving DecidableEq, Repr

/-- The projection stored in Firestore and returned to the client:
`{format_id, format_note, resolution, filesize}`. -/
structure StoredFormat where
  format_id : String
  format_note : String
  resolution : String
  filesize : Option Nat
deriving DecidableEq, Repr

/-- What `ytdlp.getVideoInfo` resolves to. -/
structure YtDlpInfo where
  formats : List YtDlpFormat
deriving DecidableEq, Repr

/-- A document of the Firestore `downloads` collection.  `none` fields have
never been written. -/
structure DownloadRecord where
  progress : Option String
  formats : Option (List StoredFormat)
  downloadUrl : Option String
deriving DecidableEq, Repr

/-- Body of a response of the Firebase handlers. -/
inductive FBody where
  | jsonError (msg : String)
  | jsonFormats (downloadId : String) (formats : List StoredFormat)
  | jsonDownloadUrl (u : String)
deriving DecidableEq, Repr

/-- An HTTP response of the Firebase handlers. -/
structure FResp where
  status : Nat
  body : FBody
deriving DecidableEq, Repr

/-- The projection `info.formats.map(format => ({format_id, format_note,
resolution, filesize}))` of `exports.downloadVideo`. -/
def storedFormats (info : YtDlpInfo) : List StoredFormat :=
  info.formats.map (fun f =>
    { format_id := f.format_id
      format_note := f.format_note
      resolution := f.resolution
      filesize := f.filesize })

/-- `exports.downloadVideo`: on success it persists
`{progress: '0%', formats}` under the generated id and answers
`{downloadId, formats}`; on failure it answers
`res.status(500).json({error: error.message})`, forwarding the upstream
error message verbatim and persisting nothing. -/
def downloadVideo (getVideoInfo : Except String YtDlpInfo)
    (downloadId : String) : Option DownloadRecord × FResp :=
  match getVideoInfo with
  | .error e => (none, { status := 500, body := .jsonError e })
  | .ok info =>
    let formats := storedFormats info
    (some { progress := some "0%", formats := some formats, downloadUrl := none },
     { status := 200, body := .jsonFormats downloadId formats })

/-- The `progress` event handler of `exports.startDownload`:
`update({progress: percent + '%'})` touches only the progress field. -/
def progressUpdate (percent : String) (r : DownloadRecord) : DownloadRecord :=
  { r with progress := some (percent ++ "%") }

/-- The record update of the `close` handler of `exports.startDownload`:
`update({progress: '100%', downloadUrl: mediaLink})`. -/
def closeUpdate (mediaLink : String) (r : DownloadRecord) : DownloadRecord :=
  { r with progress := some "100%", downloadUrl := some mediaLink }

/-- One Firestore update performed by `exports.startDownload` after the
record was created. -/
inductive RecordUpdate where
  | progress (percent : String)
  | close (mediaLink : String)
deriving DecidableEq, Repr

/-- Applying a sequence of `startDownload` updates to a record. -/
def applyUpdates : List RecordUpdate → DownloadRecord → DownloadRecord
  | [], r => r
  | .progress p :: us, r => applyUpdates us (progressUpdate p r)
  | .close l :: us, r => applyUpdates us (closeUpdate l r)

/-- The externally visible steps of `startDownload`'s `close` handler, in
program order. -/
inductive CloudEvent where
  | uploadFile (src dest : String)
  | deleteLocal (path : String)
  | updateRecord (progress downloadUrl : String)
  | respond (status : Nat) (downloadUrl : String)
deriving DecidableEq, Repr

/-- The trace of the `close` handler of `exports.startDownload`:
`bucket.upload(tempFilePath, {destination: 'videos/<id>.mp4'})`, then
`fs.unlinkSync(tempFilePath)`, then the `{progress: '100%', downloadUrl}`
update, then `res.status(200).json({downloadUrl})`.  `tempFilePath` is
`path.join(os.tmpdir(), downloadId + '.mp4')`, abstracted as a parameter. -/
def closeHandlerTrace (tempFilePath downloadId mediaLink : String) :
    List CloudEvent :=
  [ .uploadFile tempFilePath ("videos/" ++ downloadId ++ ".mp4")
  , .deleteLocal tempFilePath
  , .updateRecord "100%" mediaLink
  , .respond 200 mediaLink ]

/-! ## Helper lemmas about the sort -/

/-- Inserting permutes: `insertByHeightDesc f l` is `f :: l` up to order. -/
theorem insertByHeightDesc_perm (f : UpstreamFormat) :
    ∀ l : List UpstreamFormat, (insertByHeightDesc f l).Perm (f :: l)
  | [] => by simp [insertByHeightDesc]
  | g :: gs => by
    by_cases h : g.height < f.height
    · simp [insertByHeightDesc, h]
    · simp only [insertByHeightDesc, if_neg h]
      exact ((insertByHeightDesc_perm f gs).cons g).trans (List.Perm.swap f g gs)

/-- Sorting permutes: `sortByHeightDesc l` has exactly the elements of `l`. -/
theorem sortByHeightDesc_perm :
    ∀ l : List UpstreamFormat, (sortByHeightDesc l).Perm l
  | [] => List.Perm.refl _
  | f :: fs =>
    (insertByHeightDesc_perm f (sortByHeightDesc fs)).trans
      ((sortByHeightDesc_perm fs).cons f)

/-- Membership in the sorted list is membership in the original list. -/
theorem mem_sortByHeightDesc {x : UpstreamFormat} {l : List UpstreamFormat} :
    x ∈ sortByHeightDesc l ↔ x ∈ l :=
  (sortByHeightDesc_perm l).mem_iff

/-- Inserting into a descending list keeps it descending. -/
theorem insertByHeightDesc_pairwise (f : UpstreamFormat) :
    ∀ l : List UpstreamFormat,
      l.Pairwise (fun a b => b.height ≤ a.height) →
      (insertByHeightDesc f l).Pairwise (fun a b => b.height ≤ a.height)
  | [], _ => by simp [insertByHeightDesc]
  | g :: gs, h => by
    rcases List.pairwise_cons.mp h with ⟨hg, hgs⟩
    by_cases hlt : g.height < f.height
    · simp only [insertByHeightDesc, if_pos hlt]
      refine List.pairwise_cons.mpr ⟨?_, h⟩
      intro x hx
      rcases List.mem_cons.mp hx with rfl | hx
      · exact le_of_lt hlt
      · exact le_trans (hg x hx) (le_of_lt hlt)
    · simp only [insertByHeightDesc, if_neg hlt]
      refine List.pairwise_cons.mpr ⟨?_, insertByHeightDesc_pairwise f gs hgs⟩
      intro x hx
      rcases (insertByHeightDesc_perm f gs).mem_iff.mp hx with hx'
      rcases List.mem_cons.mp hx' with rfl | hx''
      · exact le_of_not_lt hlt
      · exact hg x hx''

/-- The sort really sorts: the result is descending in `height`. -/
theorem sortByHeightDesc_pairwise :
    ∀ l : List UpstreamFormat,
      (sortByHeightDesc l).Pairwise (fun a b => b.height ≤ a.height)
  | [] => List.Pairwise.nil
  | f :: fs => insertByHeightDesc_pairwise f _ (sortByHeightDesc_pairwise fs)

/-- Recognizer for the synthetic audio-only entry, by the three fields the
specification names. -/
def isSyntheticAudio (e : FormatEntry) : Bool :=
  e.quality == "MP3 (Audio Only)" && e.itag == ItagVal.str "bestaudio" &&
    e.container == "mp3"

/-- Every entry mapped from a kept upstream format has container `mp4`, so
it is not the synthetic audio entry. -/
theorem mapped_entry_not_synthetic {fs : List UpstreamFormat} {e : FormatEntry}
    (he : e ∈ (sortByHeightDesc (fs.filter keepFormat)).map toEntry) :
    isSyntheticAudio e = false := by
  rcases List.mem_map.mp he with ⟨f, hf, rfl⟩
  have hf' : f ∈ fs.filter keepFormat := mem_sortByHeightDesc.mp hf
  have hk : keepFormat f = true := List.of_mem_filter hf'
  have hc : f.container = "mp4" := by
    have := (Bool.and_eq_true _ _).mp ((Bool.and_eq_true _ _).mp
      ((Bool.and_eq_true _ _).mp hk).1).1
    exact eq_of_beq this.2
  simp [isSyntheticAudio, toEntry, hc]

/-- The structural description of `finalFormats`: the image of a descending
rearrangement of the kept formats of this very list, followed by exactly the
synthetic entry.  The `Perm` conjunct ties the rearrangement to the actual
kept formats, so the descending order is about their real heights. -/
theorem finalFormats_spec (fs : List UpstreamFormat) :
    (∃ sorted : List UpstreamFormat,
        sorted.Perm (fs.filter keepFormat) ∧
          sorted.Pairwise (fun a b => b.height ≤ a.height) ∧
          finalFormats fs = sorted.map toEntry ++ [syntheticAudioEntry]) ∧
      (finalFormats fs).countP isSyntheticAudio = 1 ∧
      (finalFormats fs).getLast? = some syntheticAudioEntry := by
  refine ⟨⟨sortByHeightDesc (fs.filter keepFormat), sortByHeightDesc_perm _,
    sortByHeightDesc_pairwise _, rfl⟩, ?_, List.getLast?_concat _⟩
  have h0 : ((sortByHeightDesc (fs.filter keepFormat)).map toEntry).countP
      isSyntheticAudio = 0 :=
    List.countP_eq_zero.mpr (fun e he => by
      simp [mapped_entry_not_synthetic he])
  simp [finalFormats, List.countP_append, h0, List.countP_cons,
    isSyntheticAudio, syntheticAudioEntry]

/-- Truthiness of a present non-empty string parameter. -/
theorem jsTruthy_some_of_ne {s : String} (h : s ≠ "") : jsTruthy (some s) = true := by
  have : s.isEmpty = false :=
    Bool.eq_false_iff.mpr (fun hb => h ((String.isEmpty_iff s).mp hb))
  simp [jsTruthy, this]

/-- Inversion of a successful fetch-info run: a `jsonInfo` body comes from
the 200 branch, so the extraction call succeeded, a last thumbnail existed,
and the response document is the one built there. -/
theorem fetchInfoHandler_success {validateURL : String → Bool}
    {getInfo : String → Except String VideoInfo} {url : Option String}
    {fr : FetchInfoResponse}
    (hsucc : (fetchInfoHandler validateURL getInfo url).1.body = .jsonInfo fr) :
    ∃ info thumb, getInfo (url.getD "") = .ok info ∧
      info.thumbnails.getLast? = some thumb ∧
      fr = { title := info.title, thumbnail := thumb,
             formats := finalFormats info.formats } := by
  unfold fetchInfoHandler at hsucc
  split at hsucc
  · simp at hsucc
  split at hsucc
  · simp at hsucc
  split at hsucc
  · simp at hsucc
  next info heq =>
    split at hsucc
    · simp at hsucc
    next thumb heq2 =>
      simp only [RBody.jsonInfo.injEq] at hsucc
      exact ⟨info, thumb, heq, heq2, hsucc.symm⟩

/-- C1: for every successful POST /api/fetch-info response, the formats list
is the image of a rearrangement of the request's kept upstream formats that
is descending in vertical resolution (the rearrangement is a permutation of
the actual kept formats, so its heights are their real heights and an
unsorted reply could not satisfy this), it contains exactly one synthetic
audio-only entry (quality `MP3 (Audio Only)`, itag `bestaudio`, container
`mp3`), and that entry is the last element. -/
theorem c1_formats_sorted_one_synthetic_last
    (validateURL : String → Bool) (getInfo : String → Except String VideoInfo)
    (url : Option String) (info : VideoInfo) (fr : FetchInfoResponse)
    (hok : getInfo (url.getD "") = .ok info)
    (hsucc : (fetchInfoHandler validateURL getInfo url).1.body = .jsonInfo fr) :
    (∃ sorted : List UpstreamFormat,
        sorted.Perm (info.formats.filter keepFormat) ∧
          sorted.Pairwise (fun a b => b.height ≤ a.height) ∧
          fr.formats = sorted.map toEntry ++ [syntheticAudioEntry]) ∧
      fr.formats.countP isSyntheticAudio = 1 ∧
      fr.formats.getLast? = some syntheticAudioEntry := by
  obtain ⟨info', thumb, hok', hth, rfl⟩ := fetchInfoHandler_success hsucc
  rw [hok] at hok'
  injection hok' with hinfo
  subst hinfo
  exact finalFormats_spec info.formats

/-- Concrete `ytdl.getInfo` result used by the witnesses: two muxed mp4
formats given out of order, plus one video-only webm format that the filter
must drop. -/
def sampleInfo : VideoInfo :=
  { formats :=
      [ { qualityLabel := some "360p", container := "mp4", hasVideo := true,
          hasAudio := true, height := 360, itag := 18, contentLength := some "1048576" }
      , { qualityLabel := some "720p", container := "mp4", hasVideo := true,
          hasAudio := true, height := 720, itag := 22, contentLength := none }
      , { qualityLabel := none, container := "webm", hasVideo := true,
          hasAudio := false, height := 1080, itag := 248, contentLength := none } ]
    title := "Sample Video"
    thumbnails := ["https://i.ytimg.com/vi/x/hq.jpg"] }

/-- The response document the handler produces for `sampleInfo`. -/
def sampleResp : FetchInfoResponse :=
  { title := "Sample Video"
    thumbnail := "https://i.ytimg.com/vi/x/hq.jpg"
    formats :=
      [ { quality := "720p", container := "mp4", itag := .num 22,
          contentLength := "Unknown Size" }
      , { quality := "360p", container := "mp4", itag := .num 18,
          contentLength := "1.00 MB" }
      , syntheticAudioEntry ] }

/-- C1 witness: the concrete run on `sampleInfo` satisfies both hypotheses
and the conclusion of the C1 theorem. -/
theorem c1_witness :
    ((fun _ => (.ok sampleInfo : Except String VideoInfo)) ((some "u").getD "") =
        .ok sampleInfo) ∧
      (fetchInfoHandler (fun _ => true) (fun _ => .ok sampleInfo) (some "u")).1.body =
        .jsonInfo sampleResp ∧
      ((∃ sorted : List UpstreamFormat,
          sorted.Perm (sampleInfo.formats.filter keepFormat) ∧
            sorted.Pairwise (fun a b => b.height ≤ a.height) ∧
            sampleResp.formats = sorted.map toEntry ++ [syntheticAudioEntry]) ∧
        sampleResp.formats.countP isSyntheticAudio = 1 ∧
        sampleResp.formats.getLast? = some syntheticAudioEntry) :=
  ⟨rfl, by decide,
   c1_formats_sorted_one_synthetic_last (fun _ => true) (fun _ => .ok sampleInfo)
     (some "u") sampleInfo sampleResp rfl (by decide)⟩

/-- C8: every non-synthetic entry of a successful fetch-info response comes
from an upstream format that has a (non-empty) quality label, container
`mp4`, a video track and an audio track. -/
theorem c8_entries_from_muxed_mp4_formats
    (validateURL : String → Bool) (getInfo : String → Except String VideoInfo)
    (url : Option String) (info : VideoInfo) (fr : FetchInfoResponse)
    (e : FormatEntry)
    (hok : getInfo (url.getD "") = .ok info)
    (hsucc : (fetchInfoHandler validateURL getInfo url).1.body = .jsonInfo fr)
    (he : e ∈ fr.formats) (hne : e ≠ syntheticAudioEntry) :
    ∃ f ∈ info.formats,
      (∃ s, f.qualityLabel = some s ∧ s ≠ "") ∧ f.container = "mp4" ∧
        f.hasVideo = true ∧ f.hasAudio = true ∧ e = toEntry f := by
  obtain ⟨info', thumb, hok', hth, rfl⟩ := fetchInfoHandler_success hsucc
  rw [hok] at hok'
  injection hok' with hinfo
  subst hinfo
  rcases List.mem_append.mp he with hmem | hmem
  · rcases List.mem_map.mp hmem with ⟨f, hf, rfl⟩
    have hff : f ∈ info.formats.filter keepFormat := mem_sortByHeightDesc.mp hf
    have hk : keepFormat f = true := List.of_mem_filter hff
    have hmem' : f ∈ info.formats := List.mem_of_mem_filter hff
    have h1 := (Bool.and_eq_true _ _).mp hk
    have h2 := (Bool.and_eq_true _ _).mp h1.1
    have h3 := (Bool.and_eq_true _ _).mp h2.1
    refine ⟨f, hmem', ?_, eq_of_beq h3.2, h2.2, h1.2, rfl⟩
    have hqt := h3.1
    rcases hq : f.qualityLabel with _ | s
    · rw [hq] at hqt; exact absurd hqt (by decide)
    · refine ⟨s, rfl, fun hs => ?_⟩
      rw [hq, hs] at hqt
      exact absurd hqt (by decide)
  · exact absurd (List.mem_singleton.mp hmem) hne

/-- The first reported entry for `sampleInfo`, used by the C8 witness. -/
def sampleEntry720 : FormatEntry :=
  { quality := "720p", container := "mp4", itag := .num 22,
    contentLength := "Unknown Size" }

/-- C8 witness: the concrete 720p entry of the `sampleInfo` run satisfies
the hypotheses and the conclusion of the C8 theorem. -/
theorem c8_witness :
    ((fun _ => (.ok sampleInfo : Except String VideoInfo)) ((some "u").getD "") =
        .ok sampleInfo) ∧
      (fetchInfoHandler (fun _ => true) (fun _ => .ok sampleInfo)
          (some "u")).1.body = .jsonInfo sampleResp ∧
      sampleEntry720 ∈ sampleResp.formats ∧ sampleEntry720 ≠ syntheticAudioEntry ∧
      (∃ f ∈ sampleInfo.formats,
        (∃ s, f.qualityLabel = some s ∧ s ≠ "") ∧ f.container = "mp4" ∧
          f.hasVideo = true ∧ f.hasAudio = true ∧ sampleEntry720 = toEntry f) :=
  ⟨rfl, by decide, by decide, by decide,
   c8_entries_from_muxed_mp4_formats (fun _ => true) (fun _ => .ok sampleInfo)
     (some "u") sampleInfo sampleResp sampleEntry720 rfl (by decide) (by decide)
     (by decide)⟩

/-- C4: a POST /api/fetch-info request whose body `url` is missing or empty
is answered 400 with a JSON error body and the extraction library is never
called; in the main variant the same holds when `ytdl.validateURL` rejects
the url, and the muxer variant rejects a missing or empty url the same
way. -/
theorem c4_fetch_info_rejects_missing_or_invalid_url
    (validateURL : String → Bool) (getInfo : String → Except String VideoInfo)
    (url : Option String) :
    (jsTruthy url = false →
      (fetchInfoHandler validateURL getInfo url).1.status = 400 ∧
        (∃ m, (fetchInfoHandler validateURL getInfo url).1.body = .jsonError m) ∧
        (fetchInfoHandler validateURL getInfo url).2 = false) ∧
      (∀ s, url = some s → s ≠ "" → validateURL s = false →
        (fetchInfoHandler validateURL getInfo url).1.status = 400 ∧
          (∃ m, (fetchInfoHandler validateURL getInfo url).1.body = .jsonError m) ∧
          (fetchInfoHandler validateURL getInfo url).2 = false) ∧
      (jsTruthy url = false →
        (muxerFetchInfoHandler getInfo url).1.status = 400 ∧
          (∃ m, (muxerFetchInfoHandler getInfo url).1.body = .jsonError m) ∧
          (muxerFetchInfoHandler getInfo url).2 = false) := by
  refine ⟨fun hf => ?_, fun s hs hne hv => ?_, fun hf => ?_⟩
  · simp [fetchInfoHandler, hf]
  · subst hs
    simp [fetchInfoHandler, jsTruthy_some_of_ne hne, hv]
  · simp [muxerFetchInfoHandler, hf]

/-- C4 witness: concrete instances of all three hypotheses, with an oracle
that would answer if it were called. -/
theorem c4_witness :
    (jsTruthy (none : Option String) = false ∧
      ((fetchInfoHandler (fun _ => true) (fun _ => .ok sampleInfo) none).1.status = 400 ∧
        (∃ m, (fetchInfoHandler (fun _ => true) (fun _ => .ok sampleInfo)
          none).1.body = .jsonError m) ∧
        (fetchInfoHandler (fun _ => true) (fun _ => .ok sampleInfo) none).2 = false)) ∧
      ((fetchInfoHandler (fun _ => false) (fun _ => .ok sampleInfo)
            (some "notyoutube")).1.status = 400 ∧
        (∃ m, (fetchInfoHandler (fun _ => false) (fun _ => .ok sampleInfo)
          (some "notyoutube")).1.body = .jsonError m) ∧
        (fetchInfoHandler (fun _ => false) (fun _ => .ok sampleInfo)
          (some "notyoutube")).2 = false) ∧
      ((muxerFetchInfoHandler (fun _ => .ok sampleInfo) (some "")).1.status = 400 ∧
        (∃ m, (muxerFetchInfoHandler (fun _ => .ok sampleInfo)
          (some "")).1.body = .jsonError m) ∧
        (muxerFetchInfoHandler (fun _ => .ok sampleInfo) (some "")).2 = false) :=
  ⟨⟨rfl,
    (c4_fetch_info_rejects_missing_or_invalid_url (fun _ => true)
      (fun _ => .ok sampleInfo) none).1 rfl⟩,
   ((c4_fetch_info_rejects_missing_or_invalid_url (fun _ => false)
      (fun _ => .ok sampleInfo) (some "notyoutube")).2.1 "notyoutube" rfl
      (by decide) rfl),
   (c4_fetch_info_rejects_missing_or_invalid_url (fun _ => true)
      (fun _ => .ok sampleInfo) (some "")).2.2 rfl⟩

/-- C2 counterexample: the claim says every variant answers a failed
extraction call with a generic fixed message that does not include the
upstream error; but the database-backed variant's info handler
(`exports.downloadVideo`) forwards the upstream error message verbatim, so
at this concrete failing call the body carries the upstream message and two
different upstream errors produce two different responses. -/
theorem c2_counterexample :
    (downloadVideo (.error "getaddrinfo ENOTFOUND youtube.com") "id1").2 =
        { status := 500,
          body := .jsonError "getaddrinfo ENOTFOUND youtube.com" } ∧
      (downloadVideo (.error "error A") "id1").2 ≠
        (downloadVideo (.error "error B") "id1").2 := by
  exact ⟨rfl, by decide⟩

/-- C2 amended: when the extraction call fails, every Express variant
answers 500 with a fixed generic message independent of the upstream error,
while the database-backed variant answers 500 with a JSON body that carries
the upstream error message itself. -/
theorem c2_amended_500_behaviour
    (validateURL : String → Bool) (getInfo : String → Except String VideoInfo)
    (u e msg downloadId : String)
    (hu : u ≠ "") (hv : validateURL u = true) (he : getInfo u = .error e) :
    fetchInfoHandler validateURL getInfo (some u) =
        ({ status := 500, body := .jsonError fetchInfoErrMsg }, true) ∧
      muxerFetchInfoHandler getInfo (some u) =
        ({ status := 500, body := .jsonError fetchInfoErrMsg }, true) ∧
      (part000FetchInfoCatch msg).status = 500 ∧
      part000FetchInfoCatch msg = part000FetchInfoCatch "" ∧
      (part001FetchInfoCatch msg).status = 500 ∧
      part001FetchInfoCatch msg = part001FetchInfoCatch "" ∧
      (downloadVideo (.error e) downloadId).2 =
        { status := 500, body := .jsonError e } := by
  have ht := jsTruthy_some_of_ne hu
  refine ⟨?_, ?_, rfl, rfl, rfl, rfl, rfl⟩
  · simp [fetchInfoHandler, ht, hv, he]
  · simp [muxerFetchInfoHandler, ht, he]

/-- C2 witness: a concrete failing extraction call instantiating the
amended theorem. -/
theorem c2_witness :
    ("https://youtu.be/x" ≠ "" ∧
        (fun _ => true : String → Bool) "https://youtu.be/x" = true ∧
        (fun _ => (.error "boom" : Except String VideoInfo)) "https://youtu.be/x" =
          .error "boom") ∧
      fetchInfoHandler (fun _ => true) (fun _ => .error "boom")
          (some "https://youtu.be/x") =
        ({ status := 500, body := .jsonError fetchInfoErrMsg }, true) ∧
      (downloadVideo (.error "boom") "id1").2 =
        { status := 500, body := .jsonError "boom" } :=
  ⟨⟨by decide, rfl, rfl⟩,
   (c2_amended_500_behaviour (fun _ => true) (fun _ => .error "boom")
      "https://youtu.be/x" "boom" "m" "id1" (by decide) rfl rfl).1,
   (c2_amended_500_behaviour (fun _ => true) (fun _ => .error "boom")
      "https://youtu.be/x" "boom" "m" "id1" (by decide) rfl rfl).2.2.2.2.2.2⟩

/-- Concrete `getVideoInfo` result used against C3. -/
def c3Info : YtDlpInfo :=
  { formats :=
      [ { format_id := "137", format_note := "1080p", resolution := "1920x1080",
          filesize := some 1000, url := "https://cdn/f137" } ] }

/-- C3 counterexample: the claim says a persisted record holds only a
progress percentage string and a final download URL, but the record
`exports.downloadVideo` creates also stores the whole formats list. -/
theorem c3_counterexample :
    ∃ r : DownloadRecord, (downloadVideo (.ok c3Info) "id7").1 = some r ∧
      r.formats =
        some [{ format_id := "137", format_note := "1080p",
                resolution := "1920x1080", filesize := some 1000 }] ∧
      r.formats ≠ none := by
  refine ⟨_, rfl, rfl, by decide⟩

/-- `startDownload`'s updates never touch the stored formats list. -/
theorem applyUpdates_formats :
    ∀ (us : List RecordUpdate) (r : DownloadRecord),
      (applyUpdates us r).formats = r.formats
  | [], _ => rfl
  | .progress _ :: us, r => applyUpdates_formats us (progressUpdate _ r)
  | .close _ :: us, r => applyUpdates_formats us (closeUpdate _ r)

/-- C3 amended: a persisted download record holds a progress percentage
string, the formats list captured at creation, and, once the conversion
completes, the final download URL; the updates of `startDownload` only ever
write the progress and downloadUrl fields, leaving the stored formats
unchanged. -/
theorem c3_amended_record_contents (info : YtDlpInfo) (downloadId : String)
    (r : DownloadRecord) (us : List RecordUpdate)
    (hr : (downloadVideo (.ok info) downloadId).1 = some r) :
    r = { progress := some "0%", formats := some (storedFormats info),
          downloadUrl := none } ∧
      (applyUpdates us r).formats = some (storedFormats info) ∧
      ∀ l, (closeUpdate l (applyUpdates us r)).progress = some "100%" ∧
        (closeUpdate l (applyUpdates us r)).downloadUrl = some l := by
  have hr' :
      r = { progress := some "0%", formats := some (storedFormats info),
            downloadUrl := none } := by
    injection hr with h
    exact h.symm
  subst hr'
  exact ⟨rfl, applyUpdates_formats us _, fun l => ⟨rfl, rfl⟩⟩

/-- C3 witness: the concrete record created for `c3Info`, driven through a
progress update and completed. -/
theorem c3_amended_witness :
    (downloadVideo (.ok c3Info) "id7").1 =
        some { progress := some "0%", formats := some (storedFormats c3Info),
               downloadUrl := none } ∧
      ((⟨some "0%", some (storedFormats c3Info), none⟩ : DownloadRecord) =
          { progress := some "0%", formats := some (storedFormats c3Info),
            downloadUrl := none } ∧
        (applyUpdates [.progress "50"]
          ⟨some "0%", some (storedFormats c3Info), none⟩).formats =
            some (storedFormats c3Info) ∧
        ∀ l, (closeUpdate l (applyUpdates [.progress "50"]
              ⟨some "0%", some (storedFormats c3Info), none⟩)).progress =
            some "100%" ∧
          (closeUpdate l (applyUpdates [.progress "50"]
              ⟨some "0%", some (storedFormats c3Info), none⟩)).downloadUrl =
            some l) :=
  ⟨rfl,
   c3_amended_record_contents c3Info "id7"
     ⟨some "0%", some (storedFormats c3Info), none⟩ [.progress "50"] rfl⟩

/-- C5: a GET /api/download request with `url` or `itag` missing or empty is
answered 400 and neither an extraction stream nor a transcoding pipeline is
started. -/
theorem c5_download_rejects_missing_params (q : DownloadQuery)
    (h : jsTruthy q.url = false ∨ jsTruthy q.itag = false) :
    (downloadHandler q).status = 400 ∧
      (downloadHandler q).streamOpened = false ∧
      (downloadHandler q).ffmpegStarted = false := by
  rcases h with h | h <;> simp [downloadHandler, h]

/-- A concrete download request carrying a url but no itag. -/
def queryNoItag : DownloadQuery :=
  { url := some "https://youtu.be/x", itag := none, quality := none,
    title := none }

/-- C5 witness: a request with a url but no itag. -/
theorem c5_witness :
    jsTruthy queryNoItag.itag = false ∧
      (downloadHandler queryNoItag).status = 400 ∧
      (downloadHandler queryNoItag).streamOpened = false ∧
      (downloadHandler queryNoItag).ffmpegStarted = false :=
  ⟨rfl, c5_download_rejects_missing_params queryNoItag (Or.inr rfl)⟩

/-- C6: each error callback of the download handler (the ffmpeg `error`
handler, the video stream `error` handler and the outer catch) writes a 500
only when response headers have not been sent yet. -/
theorem c6_500_only_before_headers (headersSent : Bool) :
    (ffmpegOnError headersSent = some 500 → headersSent = false) ∧
      (videoStreamOnError headersSent = some 500 → headersSent = false) ∧
      (downloadCatchOnError headersSent = some 500 → headersSent = false) := by
  cases headersSent <;>
    simp [ffmpegOnError, videoStreamOnError, downloadCatchOnError]

/-- C6 witness: with headers unsent all three handlers do write the 500. -/
theorem c6_witness :
    ffmpegOnError false = some 500 ∧ videoStreamOnError false = some 500 ∧
      downloadCatchOnError false = some 500 ∧ false = false :=
  ⟨rfl, rfl, rfl, (c6_500_only_before_headers false).1 rfl⟩

/-- A concrete video-path request (itag `22`) with no quality parameter. -/
def queryNoQuality : DownloadQuery :=
  { url := some "https://youtu.be/x", itag := some "22", quality := none,
    title := none }

/-- C7 counterexample: the claim promises Content-Type `video/mp4` for every
request with url and itag present and itag not `bestaudio`; but with the
`quality` parameter absent the handler throws while building the
Content-Disposition value and answers 500 with no Content-Type at all. -/
theorem c7_counterexample :
    downloadHandler queryNoQuality =
      { status := 500, contentType := none, contentDisposition := none,
        body := "Unexpected error during download.", streamOpened := false,
        ffmpegStarted := false } ∧
      (downloadHandler queryNoQuality).contentType ≠ some "video/mp4" := by
  exact ⟨rfl, by decide⟩

/-- C7 amended: with url and itag present, itag `bestaudio` yields
Content-Type `audio/mpeg` and an attachment filename ending in
`_audio.mp3`; any other itag yields, provided the quality parameter is
present, Content-Type `video/mp4` and an attachment filename ending in
`.mp4` built from the sanitized title and the quality parameter. -/
theorem c7_amended_headers_match_format (q : DownloadQuery)
    (hu : jsTruthy q.url = true) (hi : jsTruthy q.itag = true) :
    (q.itag = some "bestaudio" →
      (downloadHandler q).contentType = some "audio/mpeg" ∧
        (downloadHandler q).contentDisposition =
          some ("attachment; filename=\"" ++ sanitizeTitle (q.title.getD "video")
            ++ "_audio.mp3\"") ∧
        ∃ p, (downloadHandler q).contentDisposition = some (p ++ "_audio.mp3\"")) ∧
      (∀ itg qual, q.itag = some itg → itg ≠ "bestaudio" → q.quality = some qual →
        (downloadHandler q).contentType = some "video/mp4" ∧
          (downloadHandler q).contentDisposition =
            some ("attachment; filename=\"" ++ sanitizeTitle (q.title.getD "video")
              ++ "_" ++ replaceSpaces qual ++ ".mp4\"") ∧
          ∃ p, (downloadHandler q).contentDisposition = some (p ++ ".mp4\"")) := by
  constructor
  · intro hb
    rw [hb] at hi
    have : downloadHandler q =
        { status := 200, contentType := some "audio/mpeg",
          contentDisposition :=
            some ("attachment; filename=\"" ++ sanitizeTitle (q.title.getD "video")
              ++ "_audio.mp3\""),
          body := "", streamOpened := true, ffmpegStarted := true } := by
      simp [downloadHandler, hu, hi, hb, downloadTry]
    rw [this]
    exact ⟨rfl, rfl,
      ⟨"attachment; filename=\"" ++ sanitizeTitle (q.title.getD "video"), rfl⟩⟩
  · intro itg qual hitg hne hq
    rw [hitg] at hi
    have hbeq : (itg == "bestaudio") = false := beq_eq_false_iff_ne.mpr hne
    have : downloadHandler q =
        { status := 200, contentType := some "video/mp4",
          contentDisposition :=
            some ("attachment; filename=\"" ++ sanitizeTitle (q.title.getD "video")
              ++ "_" ++ replaceSpaces qual ++ ".mp4\""),
          body := "", streamOpened := true, ffmpegStarted := false } := by
      simp [downloadHandler, hu, hi, hitg, downloadTry, hbeq, hq]
    rw [this]
    exact ⟨rfl, rfl,
      ⟨"attachment; filename=\"" ++ sanitizeTitle (q.title.getD "video") ++ "_"
        ++ replaceSpaces qual, rfl⟩⟩

/-- A concrete audio request whose title holds characters the sanitizer
drops. -/
def queryAudio : DownloadQuery :=
  { url := some "u", itag := some "bestaudio", quality := none,
    title := some "My Video: part#1!" }

/-- A concrete video request with a spaced quality label and no title. -/
def queryVideo : DownloadQuery :=
  { url := some "u", itag := some "22", quality := some "720p HD",
    title := none }

/-- C7 witness: both branches of the amended theorem at concrete requests
(audio with a title the sanitizer has to clean, video with a spaced quality
label and the default title). -/
theorem c7_witness :
    (jsTruthy queryAudio.url = true ∧ jsTruthy queryAudio.itag = true) ∧
      ((downloadHandler queryAudio).contentType = some "audio/mpeg" ∧
        (downloadHandler queryAudio).contentDisposition =
          some ("attachment; filename=\"" ++
            sanitizeTitle (queryAudio.title.getD "video") ++ "_audio.mp3\"") ∧
        ∃ p, (downloadHandler queryAudio).contentDisposition =
          some (p ++ "_audio.mp3\"")) ∧
      ((downloadHandler queryVideo).contentType = some "video/mp4" ∧
        (downloadHandler queryVideo).contentDisposition =
          some ("attachment; filename=\"" ++
            sanitizeTitle (queryVideo.title.getD "video") ++ "_" ++
            replaceSpaces "720p HD" ++ ".mp4\"") ∧
        ∃ p, (downloadHandler queryVideo).contentDisposition =
          some (p ++ ".mp4\"")) :=
  ⟨⟨rfl, rfl⟩,
   (c7_amended_headers_match_format queryAudio rfl rfl).1 rfl,
   (c7_amended_headers_match_format queryVideo rfl rfl).2 "22" "720p HD" rfl
     (by decide) rfl⟩

/-- C9: the close handler of the background conversion uploads the file to
object storage strictly before deleting the local temporary copy, and only
after both does it set the record to progress `100%` with the completion URL
and send the 200 response. -/
theorem c9_close_handler_order (tempFilePath downloadId mediaLink : String) :
    closeHandlerTrace tempFilePath downloadId mediaLink =
        [ .uploadFile tempFilePath ("videos/" ++ downloadId ++ ".mp4")
        , .deleteLocal tempFilePath
        , .updateRecord "100%" mediaLink
        , .respond 200 mediaLink ] ∧
      (closeHandlerTrace tempFilePath downloadId mediaLink).findIdx?
          (fun e => match e with | .uploadFile _ _ => true | _ => false) = some 0 ∧
      (closeHandlerTrace tempFilePath downloadId mediaLink).findIdx?
          (fun e => match e with | .deleteLocal _ => true | _ => false) = some 1 ∧
      (closeHandlerTrace tempFilePath downloadId mediaLink).findIdx?
          (fun e => match e with | .updateRecord _ _ => true | _ => false) = some 2 ∧
      (closeHandlerTrace tempFilePath downloadId mediaLink).findIdx?
          (fun e => match e with | .respond _ _ => true | _ => false) = some 3 := by
  exact ⟨rfl, rfl, rfl, rfl, rfl⟩

/-- C10: on the video path a missing `quality` makes the handler throw while
building the Content-Disposition value (calling replace on undefined); the
catch turns it into a 500, not a 400, so quality is de-facto required even
though only url and itag are validated. -/
theorem c10_missing_quality_throws_500 (u i : String) (t : Option String)
    (hu : u ≠ "") (hi : i ≠ "") (hbest : i ≠ "bestaudio") :
    downloadTry (sanitizeTitle (t.getD "video")) i none =
        .error (.typeError "Cannot read properties of undefined (reading 'replace')") ∧
      downloadHandler ⟨some u, some i, none, t⟩ =
        { status := 500, contentType := none, contentDisposition := none,
          body := "Unexpected error during download.", streamOpened := false,
          ffmpegStarted := false } ∧
      (downloadHandler ⟨some u, some i, none, t⟩).status ≠ 400 := by
  have hbeq : (i == "bestaudio") = false := beq_eq_false_iff_ne.mpr hbest
  have htry : downloadTry (sanitizeTitle (t.getD "video")) i none =
      .error (.typeError "Cannot read properties of undefined (reading 'replace')") := by
    simp [downloadTry, hbeq]
  have hh : downloadHandler ⟨some u, some i, none, t⟩ =
      { status := 500, contentType := none, contentDisposition := none,
        body := "Unexpected error during download.", streamOpened := false,
        ffmpegStarted := false } := by
    simp [downloadHandler, jsTruthy_some_of_ne hu, jsTruthy_some_of_ne hi,
      downloadTry, hbeq]
  refine ⟨htry, hh, ?_⟩
  rw [hh]
  decide

/-- C10 witness: a concrete video-path request without a quality
parameter. -/
theorem c10_witness :
    ("https://youtu.be/x" ≠ "" ∧ "22" ≠ "" ∧ "22" ≠ "bestaudio") ∧
      (downloadTry (sanitizeTitle ((none : Option String).getD "video")) "22" none =
          .error (.typeError "Cannot read properties of undefined (reading 'replace')") ∧
        downloadHandler ⟨some "https://youtu.be/x", some "22", none, none⟩ =
          { status := 500, contentType := none, contentDisposition := none,
            body := "Unexpected error during download.", streamOpened := false,
            ffmpegStarted := false } ∧
        (downloadHandler ⟨some "https://youtu.be/x", some "22", none, none⟩).status ≠ 400) :=
  ⟨⟨by decide, by decide, by decide⟩,
   c10_missing_quality_throws_500 "https://youtu.be/x" "22" none (by decide)
     (by decide) (by decide)⟩

end Downloader
